import Mathlib

/-!
# Financial Projection & Reconciliation Engine — verification development

Shallow embedding of the finance-tracker engine:
* `app/finance_plan.py` — the annuity solver (`calculate_suggested_monthly_saving`)
  and the projection generator (`generate_plan_projection`);
* `main.py` — the reconciliation helpers (`add_real_finance`,
  `apply_real_finance_update`).

Modelling conventions:
* Monetary values and rates are exact real numbers (`ℝ`); the Python code uses
  IEEE floats, and the properties under study are stated over exact real
  arithmetic.
* A calendar month is its absolute month index (`Month := ℤ`, counting months
  from January of year 0), so `datetime(y, m, 1)` corresponds to the index
  `y * 12 + (m - 1)`.  `yearOf`/`monthOf` recover the calendar components and
  stepping a `DateOffset(months = i)` is `· + i`.
* Python `raise ValueError(msg)` is modelled by `Except`; the two raise sites
  of the engine are tagged with the error kind the specification assigns them
  (`invalidInput` for the precondition checks, `infeasiblePlan` for the
  income-feasibility check inside the projection loop).
-/

namespace FinanceTracker

/-- Calendar month as an absolute month index (year 0, January = 0). -/
abbrev Month := Int

/-- Calendar year of a month index (floor division, so negative indices work). -/
def yearOf (m : Month) : Int := m.fdiv 12

/-- Calendar month-of-year (1 = January … 12 = December) of a month index. -/
def monthOf (m : Month) : Int := m.fmod 12 + 1

/-- `_months_between(start, end)` from `app/finance_plan.py`:
`(end.year - start.year) * 12 + (end.month - start.month)`. -/
def months_between (s e : Month) : Int :=
  (yearOf e - yearOf s) * 12 + (monthOf e - monthOf s)

/-- Error kinds of the engine, with the raised message.  The Python code raises
`ValueError(msg)` at every site; the specification's taxonomy distinguishes the
precondition checks (`InvalidInputError`) from the income-feasibility check in
the projection loop (`InfeasiblePlanError`), and we tag each site accordingly. -/
inductive PlanError where
  | invalidInput (msg : String)
  | infeasiblePlan (msg : String)
deriving DecidableEq

/-- Effective monthly rate of `calculate_suggested_monthly_saving`
(`app/finance_plan.py` lines 36–41): `r_annual = pct / 100`; zero gives a zero
monthly rate, otherwise `(1 + r_annual) ** (1/12) - 1`. -/
noncomputable def effective_monthly_rate (annual_return_rate_percent : ℝ) : ℝ :=
  let r_annual := annual_return_rate_percent / 100
  if r_annual = 0 then 0 else (1 + r_annual) ^ ((1 : ℝ) / 12) - 1

/-- The unclamped PMT solution of `calculate_suggested_monthly_saving`
(`app/finance_plan.py` lines 47–53): the linear split when the monthly rate is
zero, otherwise the inverted future-value-of-annuity closed form. -/
noncomputable def unclamped_monthly_saving (A target : ℝ) (n : ℕ) (monthly_rate : ℝ) : ℝ :=
  if monthly_rate = 0 then
    (target - A) / n
  else
    (target - A * (1 + monthly_rate) ^ n) / (((1 + monthly_rate) ^ n - 1) / monthly_rate)

/-- `calculate_suggested_monthly_saving` (`app/finance_plan.py` lines 9–57):
validates the horizon, the asset gap and the rate sign, then returns the
non-negative clamp of the closed-form monthly contribution. -/
noncomputable def calculate_suggested_monthly_saving (initial_asset : ℝ) (initial_time : Month)
    (target_asset_value : ℝ) (target_time : Month) (annual_return_rate_percent : ℝ) :
    Except PlanError ℝ :=
  let months := months_between initial_time target_time
  if months ≤ 0 then
    .error (.invalidInput "`target_time` must be after `initial_time`")
  else if initial_asset ≥ target_asset_value then
    .error (.invalidInput "Initial asset already meets or exceeds target asset value.")
  else if annual_return_rate_percent < 0 then
    .error (.invalidInput "Annual return rate percent cannot be negative.")
  else
    .ok (max 0 (unclamped_monthly_saving initial_asset target_asset_value months.toNat
      (effective_monthly_rate annual_return_rate_percent)))

/-- One row of the projection DataFrame built by `generate_plan_projection`
(`app/finance_plan.py` lines 121–128). -/
structure PlanRow where
  month : Month
  total_asset_plan : ℝ
  cumulative_saving_plan : ℝ
  earned_income_plan : ℝ
  expense_plan : ℝ
  suggested_monthly_saving : ℝ

/-- Monthly rate used by `generate_plan_projection` (`app/finance_plan.py`
lines 88–89): `(1 + r_annual) ** (1/12) - 1`, with no special zero branch. -/
noncomputable def monthly_rate_of (annual_return_rate_percent : ℝ) : ℝ :=
  (1 + annual_return_rate_percent / 100) ^ ((1 : ℝ) / 12) - 1

/-- The simulation loop of `generate_plan_projection` (`app/finance_plan.py`
lines 100–128), one recursive step per remaining month.  State mirrors the
Python loop variables: the month just processed, the running asset balance,
the cumulative contribution, the current income and `start_year`.  The raise
at line 119 aborts the whole call (the caller receives no rows). -/
noncomputable def generate_loop (suggested monthly_rate income_increase_rate : ℝ) :
    ℕ → Month → ℝ → ℝ → ℝ → ℤ → Except PlanError (List PlanRow)
  | 0, _, _, _, _, _ => .ok []
  | rem + 1, prev, asset, cumulative, current_income, start_year =>
    let month := prev + 1
    let escalate : Bool := monthOf month = 1 ∧ start_year < yearOf month
    let income' := if escalate then current_income * (1 + income_increase_rate) else current_income
    let start_year' := if escalate then yearOf month else start_year
    let asset' := asset * (1 + monthly_rate) + suggested
    let cumulative' := cumulative + suggested
    let expense_plan := income' - suggested
    if expense_plan < 0 then
      .error (.infeasiblePlan "Current monthly salary is insufficient to meet the saving goal.")
    else
      match generate_loop suggested monthly_rate income_increase_rate
          rem month asset' cumulative' income' start_year' with
      | .error e => .error e
      | .ok rest =>
        .ok ({ month := month, total_asset_plan := asset', cumulative_saving_plan := cumulative',
               earned_income_plan := income', expense_plan := expense_plan,
               suggested_monthly_saving := suggested } :: rest)

/-- `generate_plan_projection` (`app/finance_plan.py` lines 60–131): validates
the horizon, derives the effective monthly rate and the income-increase rate,
and runs the month-by-month simulation loop. -/
noncomputable def generate_plan_projection (initial_asset : ℝ) (initial_time : Month)
    (suggested_monthly_saving : ℝ) (target_time : Month) (monthly_earned_income : ℝ)
    (annual_return_rate_percent : ℝ) (annual_income_increase_rate_percent : ℝ) :
    Except PlanError (List PlanRow) :=
  let months := months_between initial_time target_time
  if months ≤ 0 then
    .error (.invalidInput "`target_time` must be after `initial_time` and at least one month later")
  else
    generate_loop suggested_monthly_saving (monthly_rate_of annual_return_rate_percent)
      (annual_income_increase_rate_percent / 100) months.toNat initial_time initial_asset 0
      monthly_earned_income (yearOf initial_time)

/-- The income component of the projection-loop state (`app/finance_plan.py`
lines 104–107): starting from the month `prev` with a given current income and
`start_year`, the pair `(current_income, start_year)` after processing `i`
further months.  This is exactly the income/`start_year` evolution of
`generate_loop`, which never depends on the asset state or on the abort. -/
def income_state (prev : Month) (income income_increase_rate : ℝ) (start_year : ℤ) :
    ℕ → ℝ × ℤ
  | 0 => (income, start_year)
  | i + 1 =>
    let month := prev + 1
    let escalate : Bool := monthOf month = 1 ∧ start_year < yearOf month
    let income' := if escalate then income * (1 + income_increase_rate) else income
    let start_year' := if escalate then yearOf month else start_year
    income_state month income' income_increase_rate start_year' i

/-! ## Reconciliation layer (`main.py`) -/

/-- One row of the user-records DataFrame consumed by `add_real_finance`
(`main.py` lines 120–151; columns created by `app/data.py`). -/
structure RecordRow where
  month : Month
  salary : ℝ
  expense : ℝ
  asset_change : ℝ
  cash_transfer : ℝ
deriving Inhabited

/-- One row of the merged frame produced by `add_real_finance`.  The two
derived columns are cell-modelled with `Option`: `saving_real` is written for
every row (`main.py` line 161), while `total_asset_real` starts as `None` and
is only filled from the anchor index on (lines 166–173). -/
structure MergedRow where
  month : Month
  salary_real : ℝ
  expense_real : ℝ
  asset_change_real : ℝ
  cash_transfer_real : ℝ
  saving_real : Option ℝ
  total_asset_real : Option ℝ

/-- Fallback `MergedRow` (used with `List.getD`); both derived cells absent. -/
def mergedDefault : MergedRow :=
  { month := 0, salary_real := 0, expense_real := 0, asset_change_real := 0,
    cash_transfer_real := 0, saving_real := none, total_asset_real := none }

/-- The left join plus `fillna(0.0)` of `add_real_finance` (`main.py` lines
145–157): the record fields for a month, defaulting to zero when the month has
no matching record.  Records are assumed to carry at most one row per month
(`app/data.py` builds one row per calendar month). -/
def record_or_zero (records : List RecordRow) (m : Month) : RecordRow :=
  match records.find? (fun r => r.month = m) with
  | some r => r
  | none => { month := m, salary := 0, expense := 0, asset_change := 0, cash_transfer := 0 }

/-- `saving_real` of `add_real_finance` (`main.py` lines 160–163):
`salary - expense + asset_change + cash_transfer`, on the zero-filled fields. -/
def saving_real_at (records : List RecordRow) (m : Month) : ℝ :=
  (record_or_zero records m).salary - (record_or_zero records m).expense +
    (record_or_zero records m).asset_change + (record_or_zero records m).cash_transfer

/-- The month axis of `add_real_finance` when the plan is empty (`main.py`
lines 139–143): the distinct record months in ascending order
(`records["month"].sort_values().unique()`). -/
def record_month_axis (records : List RecordRow) : List Month :=
  ((records.map (fun r => r.month)).dedup).insertionSort (· ≤ ·)

/-- `add_real_finance` (`main.py` lines 120–193), restricted to the columns the
claims are about.  The planned columns ride along unchanged in the real code
(they are only renamed), so the plan input is represented by its month axis.
Day-of-month normalisation is a no-op on month indices. -/
noncomputable def add_real_finance (plan_months : List Month) (records : List RecordRow)
    (initial_asset_month : Month) (initial_asset_amount : ℝ) : List MergedRow :=
  if plan_months.isEmpty ∧ records.isEmpty then [] else
  let axis := if plan_months.isEmpty then record_month_axis records else plan_months
  let sv := fun j => saving_real_at records (axis.getD j 0)
  let start_idx := axis.findIdx? (fun m => decide (initial_asset_month ≤ m))
  List.ofFn (n := axis.length) fun i =>
    { month := axis.get i
      salary_real := (record_or_zero records (axis.get i)).salary
      expense_real := (record_or_zero records (axis.get i)).expense
      asset_change_real := (record_or_zero records (axis.get i)).asset_change
      cash_transfer_real := (record_or_zero records (axis.get i)).cash_transfer
      saving_real := some (sv i.1)
      total_asset_real :=
        match start_idx with
        | none => none
        | some s =>
          if i.1 < s then none
          else some (initial_asset_amount + ∑ j ∈ Finset.Icc s i.1, sv j) }

/-- One row of the editable real-finance table fed to
`apply_real_finance_update` (`main.py` lines 38, 248–254): the three
user-editable columns.  `update_whole_df` (lines 223–225) initialises them to
`0.0`, so unedited months carry zeros, not missing values. -/
structure RealInputRow where
  total_asset : ℝ
  earned_income : ℝ
  expense : ℝ
deriving Inhabited

/-- One row of the output of `apply_real_finance_update` (`main.py`
lines 268–286). -/
structure RealUpdatedRow where
  total_asset : ℝ
  earned_income : ℝ
  expense : ℝ
  saving : ℝ
  cumulative_saving : ℝ
  total_gain : ℝ
  cumulative_total_gain : ℝ
  investment_gain : ℝ
  cumulative_investment_gain : ℝ
deriving Inhabited

/-- The `saving` column of `apply_real_finance_update` (`main.py` line 275):
`earned_income - expense`, positionally. -/
def saving_col (df : List RealInputRow) (j : ℕ) : ℝ :=
  (df.getD j default).earned_income - (df.getD j default).expense

/-- The `total_gain` column of `apply_real_finance_update` (`main.py` lines
278–279): `total_asset.diff()`, with row 0 overwritten by
`total_asset[0] - initial_asset_amount`. -/
def total_gain_col (df : List RealInputRow) (initial_asset_amount : ℝ) : ℕ → ℝ
  | 0 => (df.getD 0 default).total_asset - initial_asset_amount
  | j + 1 => (df.getD (j + 1) default).total_asset - (df.getD j default).total_asset

/-- `apply_real_finance_update` (`main.py` lines 268–286): the columnwise
pandas assignments, per row.  `cumsum` is the inclusive prefix sum. -/
def apply_real_finance_update (df : List RealInputRow) (initial_asset_amount : ℝ) :
    List RealUpdatedRow :=
  List.ofFn (n := df.length) fun k =>
    { total_asset := (df.getD k.1 default).total_asset
      earned_income := (df.getD k.1 default).earned_income
      expense := (df.getD k.1 default).expense
      saving := saving_col df k.1
      cumulative_saving := ∑ j ∈ Finset.range (k.1 + 1), saving_col df j
      total_gain := total_gain_col df initial_asset_amount k.1
      cumulative_total_gain := ∑ j ∈ Finset.range (k.1 + 1), total_gain_col df initial_asset_amount j
      investment_gain := total_gain_col df initial_asset_amount k.1 - saving_col df k.1
      cumulative_investment_gain :=
        ∑ j ∈ Finset.range (k.1 + 1),
          (total_gain_col df initial_asset_amount j - saving_col df j) }

/-! ## Calendar arithmetic -/

/-- On absolute month indices, `_months_between` is plain subtraction. -/
theorem months_between_eq_sub (s e : Month) : months_between s e = e - s := by
  have hs := Int.fdiv_add_fmod s 12
  have he := Int.fdiv_add_fmod e 12
  unfold months_between yearOf monthOf
  omega

/-! ## Basic facts about the effective monthly rate -/

theorem monthly_rate_of_zero : monthly_rate_of 0 = 0 := by
  simp [monthly_rate_of, Real.one_rpow]

/-- The solver's zero-rate special case agrees with the generator's direct
formula, so both functions use one and the same effective monthly rate. -/
theorem effective_monthly_rate_eq (rate : ℝ) :
    effective_monthly_rate rate = monthly_rate_of rate := by
  unfold effective_monthly_rate monthly_rate_of
  by_cases h : rate / 100 = 0
  · simp [h, Real.one_rpow]
  · simp [h]

theorem monthly_rate_of_nonneg {rate : ℝ} (h : 0 ≤ rate) : 0 ≤ monthly_rate_of rate := by
  unfold monthly_rate_of
  have h1 : (1 : ℝ) ^ ((1 : ℝ) / 12) ≤ (1 + rate / 100) ^ ((1 : ℝ) / 12) :=
    Real.rpow_le_rpow (by norm_num) (by linarith) (by norm_num)
  rw [Real.one_rpow] at h1
  linarith

theorem monthly_rate_of_pos {rate : ℝ} (h : 0 < rate) : 0 < monthly_rate_of rate := by
  unfold monthly_rate_of
  have h1 : 1 < (1 + rate / 100) ^ ((1 : ℝ) / 12) :=
    (Real.one_lt_rpow_iff_of_pos (by linarith)).2 (Or.inl ⟨by linarith, by norm_num⟩)
  linarith

theorem monthly_rate_of_mono {r1 r2 : ℝ} (h0 : 0 ≤ r1) (h : r1 ≤ r2) :
    monthly_rate_of r1 ≤ monthly_rate_of r2 := by
  unfold monthly_rate_of
  have h1 : (1 + r1 / 100) ^ ((1 : ℝ) / 12) ≤ (1 + r2 / 100) ^ ((1 : ℝ) / 12) :=
    Real.rpow_le_rpow (by linarith) (by linarith) (by norm_num)
  linarith

/-- The annual percentage whose effective monthly growth factor is exactly
`11/10`: `100 * ((11/10)^12 - 1)`.  Used to produce exact-rational scenarios
that exercise the compounding path. -/
noncomputable def ratePercentEff10 : ℝ := 2138428376721 / 10 ^ 10

theorem ratePercentEff10_nonneg : (0 : ℝ) ≤ ratePercentEff10 := by
  unfold ratePercentEff10; norm_num

theorem monthly_rate_of_ratePercentEff10 : monthly_rate_of ratePercentEff10 = 1 / 10 := by
  unfold monthly_rate_of ratePercentEff10
  have hb : (1 : ℝ) + 2138428376721 / 10 ^ 10 / 100 = (11 / 10 : ℝ) ^ (12 : ℕ) := by norm_num
  rw [hb, ← Real.rpow_natCast (11 / 10 : ℝ) 12, ← Real.rpow_mul (by norm_num)]
  norm_num

theorem effective_monthly_rate_ratePercentEff10 :
    effective_monthly_rate ratePercentEff10 = 1 / 10 := by
  rw [effective_monthly_rate_eq, monthly_rate_of_ratePercentEff10]

/-! ## Solver characterisation -/

/-- On inputs passing all three validation checks, the solver returns the
clamped closed-form contribution. -/
theorem calculate_eq_ok {A target rate : ℝ} {it tt : Month}
    (hm : 0 < months_between it tt) (hlt : A < target) (hr : 0 ≤ rate) :
    calculate_suggested_monthly_saving A it target tt rate =
      .ok (max 0 (unclamped_monthly_saving A target (months_between it tt).toNat
        (effective_monthly_rate rate))) := by
  unfold calculate_suggested_monthly_saving
  rw [if_neg (by omega), if_neg (by simp [not_le, hlt]), if_neg (by simp [not_lt, hr])]

/-- The unclamped solution rewritten over the geometric sum
`∑ k < n, (1 + monthly_rate)^k`; both branches of the source coincide with
this single closed form. -/
theorem unclamped_eq_div_sum (A target : ℝ) (n : ℕ) (mr : ℝ) :
    unclamped_monthly_saving A target n mr =
      (target - A * (1 + mr) ^ n) / (∑ k ∈ Finset.range n, (1 + mr) ^ k) := by
  unfold unclamped_monthly_saving
  split_ifs with h
  · subst h
    simp [Finset.sum_const, Finset.card_range, nsmul_eq_mul]
  · have hx : (1 : ℝ) + mr ≠ 1 := fun hc => h (by linarith)
    rw [geom_sum_eq hx]
    have : (1 : ℝ) + mr - 1 = mr := by ring
    rw [this]

theorem geom_sum_pos {mr : ℝ} {n : ℕ} (hmr : 0 ≤ mr) (hn : 1 ≤ n) :
    0 < ∑ k ∈ Finset.range n, (1 + mr) ^ k := by
  apply Finset.sum_pos (fun k _ => pow_pos (by linarith) k)
  exact ⟨0, Finset.mem_range.2 (by omega)⟩

theorem unclamped_nonneg {A target mr : ℝ} {n : ℕ} (hn : 1 ≤ n) (hmr : 0 ≤ mr)
    (hge : A * (1 + mr) ^ n ≤ target) :
    0 ≤ unclamped_monthly_saving A target n mr := by
  rw [unclamped_eq_div_sum]
  exact div_nonneg (by linarith) (geom_sum_pos hmr hn).le

/-! ## Claim theorems: solver error handling and zero-rate behaviour -/

/-- C3: `calculate_suggested_monthly_saving` signals `InvalidInputError` if and
only if the horizon is non-positive, or `initial_asset ≥ target_asset`, or the
annual rate is negative; on every other input it returns normally (the checks
run before any contribution computation, so no other outcome exists). -/
theorem solver_invalid_input_iff (A target rate : ℝ) (it tt : Month) :
    ((∃ msg, calculate_suggested_monthly_saving A it target tt rate =
        .error (.invalidInput msg)) ↔
      (months_between it tt ≤ 0 ∨ A ≥ target ∨ rate < 0)) ∧
    ((∃ c, calculate_suggested_monthly_saving A it target tt rate = .ok c) ↔
      ¬(months_between it tt ≤ 0 ∨ A ≥ target ∨ rate < 0)) := by
  unfold calculate_suggested_monthly_saving
  by_cases h1 : months_between it tt ≤ 0
  · rw [if_pos h1]; simp [h1]
  · rw [if_neg h1]
    by_cases h2 : A ≥ target
    · rw [if_pos h2]; simp [h1, h2]
    · rw [if_neg h2]
      by_cases h3 : rate < 0
      · rw [if_pos h3]; simp [h1, h2, h3]
      · rw [if_neg h3]; simp [h1, h2, h3]

/-- C3 witness: a passing input returns normally; a non-positive horizon
produces `InvalidInputError`. -/
theorem solver_invalid_input_iff_witness :
    (∃ c, calculate_suggested_monthly_saving 0 0 1200 12 0 = .ok c) ∧
    (∃ msg, calculate_suggested_monthly_saving 0 0 1200 0 0 =
      .error (.invalidInput msg)) := by
  constructor
  · refine (solver_invalid_input_iff 0 1200 0 0 12).2.mpr ?_
    push_neg
    exact ⟨by decide, by norm_num, by norm_num⟩
  · exact (solver_invalid_input_iff 0 1200 0 0 0).1.mpr (Or.inl (by decide))

/-- C9: with a zero annual rate the solver returns exactly
`(target − initial) / months` — the linear split, no compounding. -/
theorem solver_zero_rate_linear (A target : ℝ) (it tt : Month)
    (hm : 0 < months_between it tt) (hlt : A < target) :
    calculate_suggested_monthly_saving A it target tt 0 =
      .ok ((target - A) / ((months_between it tt).toNat : ℝ)) := by
  rw [calculate_eq_ok hm hlt le_rfl]
  have he : effective_monthly_rate 0 = 0 := by
    rw [effective_monthly_rate_eq, monthly_rate_of_zero]
  rw [he]
  unfold unclamped_monthly_saving
  rw [if_pos rfl]
  have hnn : 0 ≤ (target - A) / ((months_between it tt).toNat : ℝ) :=
    div_nonneg (by linarith) (Nat.cast_nonneg _)
  rw [max_eq_right hnn]

/-- C9 witness: `solve(initial=0, target=1200, months=12, rate=0) = 100`
exactly (the spec's concrete scenario). -/
theorem solver_zero_rate_linear_witness :
    calculate_suggested_monthly_saving 0 0 1200 12 0 = .ok 100 := by
  rw [solver_zero_rate_linear 0 1200 0 12 (by decide) (by norm_num)]
  have h12 : (months_between 0 12).toNat = 12 := by decide
  rw [h12]
  norm_num

/-- C7 (amended): the solver floors its result at 0, and the unclamped
closed-form solution is non-negative — so the floor does not change the
returned value — whenever `initial · (1 + monthly_rate)^months ≤ target`.
(Without that extra bound the unclamped solution can be negative even with
`initial < target`; see the counterexample.) -/
theorem solver_clamp_inactive (A target rate : ℝ) (it tt : Month)
    (hm : 0 < months_between it tt) (hlt : A < target) (hr : 0 ≤ rate)
    (hge : A * (1 + effective_monthly_rate rate) ^ (months_between it tt).toNat ≤ target) :
    0 ≤ unclamped_monthly_saving A target (months_between it tt).toNat
        (effective_monthly_rate rate) ∧
    calculate_suggested_monthly_saving A it target tt rate =
      .ok (unclamped_monthly_saving A target (months_between it tt).toNat
        (effective_monthly_rate rate)) := by
  have hmr : 0 ≤ effective_monthly_rate rate := by
    rw [effective_monthly_rate_eq]; exact monthly_rate_of_nonneg hr
  have hn : 1 ≤ (months_between it tt).toNat := by omega
  have h0 := unclamped_nonneg hn hmr hge
  exact ⟨h0, by rw [calculate_eq_ok hm hlt hr, max_eq_right h0]⟩

/-- C7 witness: at `initial = 5`, `target = 105`, two months, rate `0`, the
unclamped solution is non-negative and is returned unchanged. -/
theorem solver_clamp_inactive_witness :
    0 ≤ unclamped_monthly_saving 5 105 (months_between 0 2).toNat
        (effective_monthly_rate 0) ∧
    calculate_suggested_monthly_saving 5 0 105 2 0 =
      .ok (unclamped_monthly_saving 5 105 (months_between 0 2).toNat
        (effective_monthly_rate 0)) := by
  apply solver_clamp_inactive 5 105 0 0 2 (by decide) (by norm_num) le_rfl
  have he : effective_monthly_rate 0 = 0 := by
    rw [effective_monthly_rate_eq, monthly_rate_of_zero]
  rw [he]
  norm_num

/-- C7 counterexample: `initial = 100 < 105 = target`, one month, annual rate
`≈ 213.84 %` (monthly factor exactly `11/10`).  The preconditions of the claim
hold, yet the unclamped closed-form solution is `−5 < 0` and the defensive
floor does change the returned value (the solver returns `0`, not `−5`). -/
theorem solver_clamp_counterexample :
    (100 : ℝ) < 105 ∧ (0 : ℝ) ≤ ratePercentEff10 ∧
    unclamped_monthly_saving 100 105 (months_between 0 1).toNat
      (effective_monthly_rate ratePercentEff10) = -5 ∧
    calculate_suggested_monthly_saving 100 0 105 1 ratePercentEff10 = .ok 0 := by
  have hm : months_between 0 1 = 1 := by decide
  have hu : unclamped_monthly_saving 100 105 (months_between 0 1).toNat
      (effective_monthly_rate ratePercentEff10) = -5 := by
    rw [hm, effective_monthly_rate_ratePercentEff10]
    unfold unclamped_monthly_saving
    rw [if_neg (by norm_num)]
    norm_num
  refine ⟨by norm_num, ratePercentEff10_nonneg, hu, ?_⟩
  rw [calculate_eq_ok (by rw [hm]; omega) (by norm_num) ratePercentEff10_nonneg, hu]
  norm_num

/-! ## Monotonicity of the solved contribution in the rate -/

/-- Cross inequality between growth factors and geometric sums:
for `0 ≤ mr₁ ≤ mr₂`,
`(1+mr₁)ⁿ · ∑ₖ (1+mr₂)ᵏ ≤ (1+mr₂)ⁿ · ∑ₖ (1+mr₁)ᵏ`. -/
theorem factor_mul_geom_sum_cross {mr1 mr2 : ℝ} (h0 : 0 ≤ mr1) (h12 : mr1 ≤ mr2) (n : ℕ) :
    (1 + mr1) ^ n * ∑ k ∈ Finset.range n, (1 + mr2) ^ k ≤
      (1 + mr2) ^ n * ∑ k ∈ Finset.range n, (1 + mr1) ^ k := by
  rw [Finset.mul_sum, Finset.mul_sum]
  apply Finset.sum_le_sum
  intro k hk
  have hkn : k ≤ n := (Finset.mem_range.1 hk).le
  have e1 : (1 + mr1 : ℝ) ^ n = (1 + mr1) ^ k * (1 + mr1) ^ (n - k) := by
    rw [← pow_add]; congr 1; omega
  have e2 : (1 + mr2 : ℝ) ^ n = (1 + mr2) ^ k * (1 + mr2) ^ (n - k) := by
    rw [← pow_add]; congr 1; omega
  rw [e1, e2]
  have hp : (1 + mr1 : ℝ) ^ (n - k) ≤ (1 + mr2) ^ (n - k) :=
    pow_le_pow_left₀ (by linarith) (by linarith) _
  have hnn : (0 : ℝ) ≤ (1 + mr1) ^ k * (1 + mr2) ^ k :=
    mul_nonneg (pow_nonneg (by linarith) _) (pow_nonneg (by linarith) _)
  nlinarith [hp, hnn]

/-- For a non-negative starting asset and target, the unclamped closed-form
contribution is antitone in the monthly rate. -/
theorem unclamped_anti {A target mr1 mr2 : ℝ} {n : ℕ} (hn : 1 ≤ n)
    (hA : 0 ≤ A) (ht : 0 ≤ target) (h0 : 0 ≤ mr1) (h12 : mr1 ≤ mr2) :
    unclamped_monthly_saving A target n mr2 ≤ unclamped_monthly_saving A target n mr1 := by
  rw [unclamped_eq_div_sum, unclamped_eq_div_sum]
  have hS1 := geom_sum_pos h0 hn
  have hS2 := geom_sum_pos (le_trans h0 h12) hn
  rw [div_le_div_iff₀ hS2 hS1]
  have hSle : ∑ k ∈ Finset.range n, (1 + mr1) ^ k ≤ ∑ k ∈ Finset.range n, (1 + mr2) ^ k :=
    Finset.sum_le_sum fun k _ => pow_le_pow_left₀ (by linarith) (by linarith) _
  have hcross := factor_mul_geom_sum_cross h0 h12 n
  nlinarith [mul_le_mul_of_nonneg_left hSle ht, mul_le_mul_of_nonneg_left hcross hA]

/-- C8 (amended): for a fixed **non-negative** initial asset below the target
and a fixed positive horizon, the solved monthly contribution is monotonically
non-increasing in the annual return rate.  (The claim as stated, without
`0 ≤ initial_asset`, fails: a negative balance compounds against the saver; see
the counterexample.) -/
theorem solver_antitone_in_rate (A target r1 r2 : ℝ) (it tt : Month)
    (hA : 0 ≤ A) (hlt : A < target) (hm : 0 < months_between it tt)
    (h1 : 0 ≤ r1) (h12 : r1 ≤ r2) :
    ∃ c1 c2, calculate_suggested_monthly_saving A it target tt r1 = .ok c1 ∧
      calculate_suggested_monthly_saving A it target tt r2 = .ok c2 ∧ c2 ≤ c1 := by
  refine ⟨_, _, calculate_eq_ok hm hlt h1, calculate_eq_ok hm hlt (le_trans h1 h12), ?_⟩
  apply max_le_max le_rfl
  have hmr1 : 0 ≤ effective_monthly_rate r1 := by
    rw [effective_monthly_rate_eq]; exact monthly_rate_of_nonneg h1
  have hmr12 : effective_monthly_rate r1 ≤ effective_monthly_rate r2 := by
    rw [effective_monthly_rate_eq, effective_monthly_rate_eq]
    exact monthly_rate_of_mono h1 h12
  exact unclamped_anti (by omega) hA (by linarith) hmr1 hmr12

/-- C8 witness: `initial = 0`, `target = 1200`, twelve months; raising the
annual rate from `0 %` to `≈ 213.84 %` does not increase the suggested
contribution. -/
theorem solver_antitone_in_rate_witness :
    ∃ c1 c2, calculate_suggested_monthly_saving 0 0 1200 12 0 = .ok c1 ∧
      calculate_suggested_monthly_saving 0 0 1200 12 ratePercentEff10 = .ok c2 ∧ c2 ≤ c1 :=
  solver_antitone_in_rate 0 1200 0 ratePercentEff10 0 12 le_rfl (by norm_num)
    (by decide) le_rfl ratePercentEff10_nonneg

/-- C8 counterexample: with a **negative** initial asset `−10` and target `−5`
(so `initial < target`, one month, rates `0 ≤ ratePercentEff10`), the solved
contribution *increases* with the rate: `5` at rate `0` but `6` at the higher
rate — the claim as stated is false without a sign assumption on the asset. -/
theorem solver_antitone_counterexample :
    (-10 : ℝ) < -5 ∧ (0 : ℝ) ≤ ratePercentEff10 ∧
    calculate_suggested_monthly_saving (-10) 0 (-5) 1 0 = .ok 5 ∧
    calculate_suggested_monthly_saving (-10) 0 (-5) 1 ratePercentEff10 = .ok 6 ∧
    ¬((6 : ℝ) ≤ 5) := by
  have hm : 0 < months_between 0 1 := by decide
  have hm1 : (months_between 0 1).toNat = 1 := by decide
  refine ⟨by norm_num, ratePercentEff10_nonneg, ?_, ?_, by norm_num⟩
  · rw [calculate_eq_ok hm (by norm_num) le_rfl, hm1]
    have he : effective_monthly_rate 0 = 0 := by
      rw [effective_monthly_rate_eq, monthly_rate_of_zero]
    rw [he]
    unfold unclamped_monthly_saving
    rw [if_pos rfl]
    norm_num
  · rw [calculate_eq_ok hm (by norm_num) ratePercentEff10_nonneg, hm1,
      effective_monthly_rate_ratePercentEff10]
    unfold unclamped_monthly_saving
    rw [if_neg (by norm_num)]
    norm_num

/-! ## Projection-loop characterisation -/

/-- Unfolding one step of the simulation loop, with the income state abridged
through `income_state … 1`. -/
theorem generate_loop_succ_eq (s mr ir : ℝ) (rem : ℕ) (prev : Month) (a c inc : ℝ) (sy : ℤ) :
    generate_loop s mr ir (rem + 1) prev a c inc sy =
      if (income_state prev inc ir sy 1).1 - s < 0 then
        .error (.infeasiblePlan "Current monthly salary is insufficient to meet the saving goal.")
      else
        match generate_loop s mr ir rem (prev + 1) (a * (1 + mr) + s) (c + s)
            (income_state prev inc ir sy 1).1 (income_state prev inc ir sy 1).2 with
        | .error e => .error e
        | .ok rest =>
          .ok ({ month := prev + 1, total_asset_plan := a * (1 + mr) + s,
                 cumulative_saving_plan := c + s,
                 earned_income_plan := (income_state prev inc ir sy 1).1,
                 expense_plan := (income_state prev inc ir sy 1).1 - s,
                 suggested_monthly_saving := s } :: rest) := by
  simp only [generate_loop, income_state]

/-- The income state after `i + 1` months is the income state after `i` months
of the once-stepped configuration. -/
theorem income_state_succ_shift (prev : Month) (inc ir : ℝ) (sy : ℤ) (i : ℕ) :
    income_state prev inc ir sy (i + 1) =
      income_state (prev + 1) (income_state prev inc ir sy 1).1 ir
        (income_state prev inc ir sy 1).2 i := by
  simp only [income_state]

/-- When the loop succeeds it emits exactly one row per remaining month, with
consecutive months and the compound-then-contribute closed-form balance. -/
theorem generate_loop_ok_spec (s mr ir : ℝ) (rem : ℕ) :
    ∀ (prev : Month) (a c inc : ℝ) (sy : ℤ) (rows : List PlanRow),
      generate_loop s mr ir rem prev a c inc sy = .ok rows →
      rows.length = rem ∧
        ∀ k (hk : k < rows.length),
          (rows.get ⟨k, hk⟩).month = prev + 1 + k ∧
          (rows.get ⟨k, hk⟩).total_asset_plan =
            a * (1 + mr) ^ (k + 1) + s * ∑ j ∈ Finset.range (k + 1), (1 + mr) ^ j := by
  induction rem with
  | zero =>
    intro prev a c inc sy rows h
    simp only [generate_loop] at h
    cases h
    exact ⟨rfl, fun k hk => absurd hk (by simp)⟩
  | succ rem ih =>
    intro prev a c inc sy rows h
    rw [generate_loop_succ_eq] at h
    split at h
    · exact absurd h (by simp)
    · split at h
      · exact absurd h (by simp)
      · rename_i rest heq
        cases h
        obtain ⟨hlen, hspec⟩ := ih _ _ _ _ _ _ heq
        refine ⟨by simp [hlen], ?_⟩
        intro k hk
        match k with
        | 0 =>
          refine ⟨by simp, ?_⟩
          simp [Finset.range_one]
        | k + 1 =>
          obtain ⟨hm, ha⟩ := hspec k (by simpa using hk)
          simp only [List.get_cons_succ]
          constructor
          · rw [hm]; push_cast; ring
          · have hsum : ∑ j ∈ Finset.range (k + 1 + 1), ((1 : ℝ) + mr) ^ j =
                (∑ j ∈ Finset.range (k + 1), (1 + mr) ^ j) + (1 + mr) ^ (k + 1) :=
              Finset.sum_range_succ _ _
            rw [ha, hsum]
            ring

/-- Every error the loop produces is the infeasible-plan error, and it occurs
only when some simulated month's (possibly escalated) income cannot cover the
contribution. -/
theorem generate_loop_error_spec (s mr ir : ℝ) (rem : ℕ) :
    ∀ (prev : Month) (a c inc : ℝ) (sy : ℤ) (e : PlanError),
      generate_loop s mr ir rem prev a c inc sy = .error e →
      (∃ msg, e = .infeasiblePlan msg) ∧
        ∃ i, 1 ≤ i ∧ i ≤ rem ∧ (income_state prev inc ir sy i).1 - s < 0 := by
  induction rem with
  | zero =>
    intro prev a c inc sy e h
    simp only [generate_loop] at h
    cases h
  | succ rem ih =>
    intro prev a c inc sy e h
    rw [generate_loop_succ_eq] at h
    split at h
    · rename_i hc
      cases h
      exact ⟨⟨_, rfl⟩, 1, le_rfl, by omega, hc⟩
    · split at h
      · rename_i e' heq
        cases h
        obtain ⟨hkind, i, h1, h2, hcond⟩ := ih _ _ _ _ _ _ heq
        refine ⟨hkind, i + 1, by omega, by omega, ?_⟩
        rw [income_state_succ_shift]
        exact hcond
      · cases h

/-- Conversely, an under-covered month anywhere in the horizon forces the loop
to abort with the infeasible-plan error. -/
theorem generate_loop_error_of_income (s mr ir : ℝ) (rem : ℕ) :
    ∀ (prev : Month) (a c inc : ℝ) (sy : ℤ),
      (∃ i, 1 ≤ i ∧ i ≤ rem ∧ (income_state prev inc ir sy i).1 - s < 0) →
      ∃ msg, generate_loop s mr ir rem prev a c inc sy = .error (.infeasiblePlan msg) := by
  induction rem with
  | zero =>
    intro prev a c inc sy ⟨i, h1, h2, _⟩
    omega
  | succ rem ih =>
    intro prev a c inc sy ⟨i, h1, h2, hcond⟩
    rw [generate_loop_succ_eq]
    by_cases hc : (income_state prev inc ir sy 1).1 - s < 0
    · exact ⟨_, by rw [if_pos hc]⟩
    · have hi1 : i ≠ 1 := fun he => hc (by rw [← he]; exact hcond)
      match i, h1, hi1 with
      | j + 1, _, _ =>
        have hj : 1 ≤ j := by omega
        rw [income_state_succ_shift] at hcond
        obtain ⟨msg, hloop⟩ := ih _ _ _ _ _ ⟨j, hj, by omega, hcond⟩
        refine ⟨msg, ?_⟩
        rw [if_neg hc, hloop]

/-- With a zero income-increase rate the simulated income never changes. -/
theorem income_state_const_rate (i : ℕ) :
    ∀ (prev : Month) (inc : ℝ) (sy : ℤ), (income_state prev inc 0 sy i).1 = inc := by
  induction i with
  | zero => intro prev inc sy; simp [income_state]
  | succ i ih =>
    intro prev inc sy
    simp only [income_state]
    split <;> simpa using ih _ _ _

/-- On a positive horizon the generator is exactly its simulation loop. -/
theorem generate_eq_loop {it tt : Month} (h : 0 < months_between it tt)
    (A s inc rate incr : ℝ) :
    generate_plan_projection A it s tt inc rate incr =
      generate_loop s (monthly_rate_of rate) (incr / 100) (months_between it tt).toNat
        it A 0 inc (yearOf it) := by
  unfold generate_plan_projection
  rw [if_neg (by omega)]

/-- Inversion for a successful solver call: all three validation checks passed
and the returned value is the clamped closed form. -/
theorem calculate_ok_inversion {A target rate Cs : ℝ} {it tt : Month}
    (hs : calculate_suggested_monthly_saving A it target tt rate = .ok Cs) :
    0 < months_between it tt ∧ A < target ∧ 0 ≤ rate ∧
      Cs = max 0 (unclamped_monthly_saving A target (months_between it tt).toNat
        (effective_monthly_rate rate)) := by
  unfold calculate_suggested_monthly_saving at hs
  by_cases h1 : months_between it tt ≤ 0
  · rw [if_pos h1] at hs; cases hs
  · rw [if_neg h1] at hs
    by_cases h2 : A ≥ target
    · rw [if_pos h2] at hs; cases hs
    · rw [if_neg h2] at hs
      by_cases h3 : rate < 0
      · rw [if_pos h3] at hs; cases hs
      · rw [if_neg h3] at hs
        cases hs
        exact ⟨by omega, by linarith [not_le.1 h2], not_lt.1 h3, rfl⟩

/-! ## Claim theorems: projection generator -/

/-- C2: `generate_plan_projection` raises `InfeasiblePlanError` iff, on a
positive horizon, some simulated month's (possibly escalated) income minus the
contribution is negative; the `Except` result carries no rows when it raises.
In particular (second conjunct) a constant income strictly below the
contribution raises for every horizon. -/
theorem generate_infeasible_iff (A : ℝ) (it tt : Month) (s inc rate incr : ℝ) :
    ((∃ msg, generate_plan_projection A it s tt inc rate incr =
        .error (.infeasiblePlan msg)) ↔
      0 < months_between it tt ∧
        ∃ i, 1 ≤ i ∧ i ≤ (months_between it tt).toNat ∧
          (income_state it inc (incr / 100) (yearOf it) i).1 - s < 0) ∧
    (0 < months_between it tt → incr = 0 → inc - s < 0 →
      ∃ msg, generate_plan_projection A it s tt inc rate incr =
        .error (.infeasiblePlan msg)) := by
  have main : (∃ msg, generate_plan_projection A it s tt inc rate incr =
        .error (.infeasiblePlan msg)) ↔
      0 < months_between it tt ∧
        ∃ i, 1 ≤ i ∧ i ≤ (months_between it tt).toNat ∧
          (income_state it inc (incr / 100) (yearOf it) i).1 - s < 0 := by
    constructor
    · rintro ⟨msg, h⟩
      by_cases hm : 0 < months_between it tt
      · rw [generate_eq_loop hm] at h
        exact ⟨hm, (generate_loop_error_spec _ _ _ _ _ _ _ _ _ _ h).2⟩
      · exfalso
        unfold generate_plan_projection at h
        rw [if_pos (by omega)] at h
        cases h
    · rintro ⟨hm, hex⟩
      rw [generate_eq_loop hm]
      exact generate_loop_error_of_income _ _ _ _ _ _ _ _ _ hex
  refine ⟨main, fun hm hincr hlt => main.2 ⟨hm, 1, le_rfl, by omega, ?_⟩⟩
  rw [hincr]
  norm_num [income_state_const_rate]
  linarith

/-- C2 witness: income `1000`/month against contribution `1100`/month (three
months, no escalation) raises `InfeasiblePlanError`. -/
theorem generate_infeasible_iff_witness :
    ∃ msg, generate_plan_projection 0 0 1100 3 1000 0 0 =
      .error (.infeasiblePlan msg) :=
  (generate_infeasible_iff 0 0 3 1100 1000 0 0).2 (by decide) rfl (by norm_num)

/-- C6: a successful projection has exactly `months_between` rows (the month
count from `initial_time` exclusive to `target_time` inclusive) and row `k`
carries month `initial_time + 1 + k` — consecutive calendar months, strictly
increasing, no gaps or duplicates, ending at `target_time`. -/
theorem generate_months_consecutive (A : ℝ) (it tt : Month) (s inc rate incr : ℝ)
    (rows : List PlanRow)
    (h : generate_plan_projection A it s tt inc rate incr = .ok rows) :
    0 < months_between it tt ∧
    rows.length = (months_between it tt).toNat ∧
    ∀ k (hk : k < rows.length), (rows.get ⟨k, hk⟩).month = it + 1 + k := by
  by_cases hm : 0 < months_between it tt
  · rw [generate_eq_loop hm] at h
    obtain ⟨hlen, hspec⟩ := generate_loop_ok_spec _ _ _ _ _ _ _ _ _ _ h
    exact ⟨hm, hlen, fun k hk => (hspec k hk).1⟩
  · exfalso
    unfold generate_plan_projection at h
    rw [if_pos (by omega)] at h
    cases h

/-- C6 witness: a concrete two-month projection (all-zero money values) whose
output has exactly `months_between 0 2 = 2` rows. -/
theorem generate_months_consecutive_witness :
    ∃ rows, generate_plan_projection 0 0 0 2 0 0 0 = .ok rows ∧
      rows.length = (months_between 0 2).toNat ∧ rows.length = 2 := by
  have e1 : (decide (monthOf (0 + 1) = 1 ∧ yearOf (0 : Month) < yearOf (0 + 1))) = false := by
    decide
  have e2 : (decide (monthOf (0 + 1 + 1) = 1 ∧ yearOf (0 : Month) < yearOf (0 + 1 + 1))) = false := by
    decide
  have ht : (months_between 0 2).toNat = 2 := by decide
  have hg : generate_plan_projection 0 0 0 2 0 0 0 =
      .ok [{ month := 1, total_asset_plan := 0, cumulative_saving_plan := 0,
             earned_income_plan := 0, expense_plan := 0, suggested_monthly_saving := 0 },
           { month := 2, total_asset_plan := 0, cumulative_saving_plan := 0,
             earned_income_plan := 0, expense_plan := 0, suggested_monthly_saving := 0 }] := by
    rw [generate_eq_loop (by decide), ht, monthly_rate_of_zero]
    norm_num [generate_loop, e1, e2]
  obtain ⟨_, hlen, _⟩ := generate_months_consecutive 0 0 2 0 0 0 0 _ hg
  exact ⟨_, hg, hlen, by rw [hlen, ht]⟩

/-! ## Claim theorems: solver/generator round trip -/

/-- C1 (amended): when additionally
`initial · (1 + monthly_rate)^months ≤ target` (equivalently, the unclamped
closed-form contribution is non-negative, so the solver's defensive floor is
inactive), running the solver and then the generator over the same horizon
with the returned contribution ends at exactly `target` — over exact real
arithmetic.  (Without that extra bound the solver clamps to `0` and the final
balance overshoots the target; see the counterexample.) -/
theorem solve_then_generate_reaches_target (A target rate inc incr Cs : ℝ) (it tt : Month)
    (rows : List PlanRow)
    (hge : A * (1 + effective_monthly_rate rate) ^ (months_between it tt).toNat ≤ target)
    (hs : calculate_suggested_monthly_saving A it target tt rate = .ok Cs)
    (hg : generate_plan_projection A it Cs tt inc rate incr = .ok rows)
    (hne : rows ≠ []) :
    (rows.getLast hne).total_asset_plan = target := by
  obtain ⟨hm, hlt, hr, hCs⟩ := calculate_ok_inversion hs
  set n := (months_between it tt).toNat with hn
  have hn1 : 1 ≤ n := by omega
  have hmr : 0 ≤ effective_monthly_rate rate := by
    rw [effective_monthly_rate_eq]; exact monthly_rate_of_nonneg hr
  have hunc : 0 ≤ unclamped_monthly_saving A target n (effective_monthly_rate rate) :=
    unclamped_nonneg hn1 hmr hge
  have hCs' : Cs = unclamped_monthly_saving A target n (effective_monthly_rate rate) := by
    rw [hCs, max_eq_right hunc]
  rw [generate_eq_loop hm] at hg
  obtain ⟨hlen, hspec⟩ := generate_loop_ok_spec _ _ _ _ _ _ _ _ _ _ hg
  have hlast : rows.getLast hne = rows.get ⟨rows.length - 1, by
      have := List.length_pos.2 hne; omega⟩ :=
    List.getLast_eq_get rows hne
  have hidx : rows.length - 1 < rows.length := by
    have := List.length_pos.2 hne; omega
  obtain ⟨_, ha⟩ := hspec (rows.length - 1) hidx
  rw [hlast, ha]
  have hlen1 : rows.length - 1 + 1 = n := by
    rw [hlen]
    have : 0 < n := hn1
    omega
  rw [hlen1, ← effective_monthly_rate_eq, hCs', unclamped_eq_div_sum]
  have hS : 0 < ∑ j ∈ Finset.range n, (1 + effective_monthly_rate rate) ^ j :=
    geom_sum_pos hmr hn1
  field_simp

/-- C1 witness: `initial = 0`, `target = 200`, two months, rate `0`, income
`200`: the solver returns `100` and the projection ends at exactly `200`. -/
theorem solve_then_generate_witness :
    calculate_suggested_monthly_saving 0 0 200 2 0 = .ok 100 ∧
    ∃ rows hne, generate_plan_projection 0 0 100 2 200 0 0 = .ok rows ∧
      (rows.getLast hne).total_asset_plan = 200 := by
  have ht : (months_between 0 2).toNat = 2 := by decide
  have he : effective_monthly_rate 0 = 0 := by
    rw [effective_monthly_rate_eq, monthly_rate_of_zero]
  have hs : calculate_suggested_monthly_saving 0 0 200 2 0 = .ok 100 := by
    rw [calculate_eq_ok (by decide) (by norm_num) le_rfl, he, ht]
    unfold unclamped_monthly_saving
    rw [if_pos rfl]
    norm_num
  have e1 : (decide (monthOf (0 + 1) = 1 ∧ yearOf (0 : Month) < yearOf (0 + 1))) = false := by
    decide
  have e2 : (decide (monthOf (0 + 1 + 1) = 1 ∧ yearOf (0 : Month) < yearOf (0 + 1 + 1))) = false := by
    decide
  have hg : generate_plan_projection 0 0 100 2 200 0 0 =
      .ok [{ month := 1, total_asset_plan := 100, cumulative_saving_plan := 100,
             earned_income_plan := 200, expense_plan := 100, suggested_monthly_saving := 100 },
           { month := 2, total_asset_plan := 200, cumulative_saving_plan := 200,
             earned_income_plan := 200, expense_plan := 100, suggested_monthly_saving := 100 }] := by
    rw [generate_eq_loop (by decide), ht, monthly_rate_of_zero]
    norm_num [generate_loop, e1, e2]
  exact ⟨hs, _, by simp, hg,
    solve_then_generate_reaches_target 0 200 0 200 0 100 0 2 _
      (by rw [he, ht]; norm_num) hs hg (by simp)⟩

/-- C1 counterexample: `initial = 100 < 105 = target`, one month, annual rate
`≈ 213.84 %` (monthly factor exactly `11/10`), income `1000`.  The solver's
clamp fires (it returns `0`) and the projection ends at `110`, not `105`:
off by `5`, far beyond a `1e-6` relative tolerance, refuting the claim as
stated. -/
theorem solve_then_generate_counterexample :
    (100 : ℝ) < 105 ∧ (0 : ℝ) ≤ ratePercentEff10 ∧
    calculate_suggested_monthly_saving 100 0 105 1 ratePercentEff10 = .ok 0 ∧
    generate_plan_projection 100 0 0 1 1000 ratePercentEff10 0 =
      .ok [{ month := 1, total_asset_plan := 110, cumulative_saving_plan := 0,
             earned_income_plan := 1000, expense_plan := 1000,
             suggested_monthly_saving := 0 }] ∧
    (110 : ℝ) ≠ 105 ∧ ¬(|(110 : ℝ) - 105| ≤ 105 * (1 / 1000000)) := by
  have hm : 0 < months_between 0 1 := by decide
  have ht : (months_between 0 1).toNat = 1 := by decide
  have hs : calculate_suggested_monthly_saving 100 0 105 1 ratePercentEff10 = .ok 0 := by
    rw [calculate_eq_ok hm (by norm_num) ratePercentEff10_nonneg, ht,
      effective_monthly_rate_ratePercentEff10]
    unfold unclamped_monthly_saving
    rw [if_neg (by norm_num)]
    norm_num
  have e1 : (decide (monthOf (0 + 1) = 1 ∧ yearOf (0 : Month) < yearOf (0 + 1))) = false := by
    decide
  have hg : generate_plan_projection 100 0 0 1 1000 ratePercentEff10 0 =
      .ok [{ month := 1, total_asset_plan := 110, cumulative_saving_plan := 0,
             earned_income_plan := 1000, expense_plan := 1000,
             suggested_monthly_saving := 0 }] := by
    rw [generate_eq_loop hm, ht, monthly_rate_of_ratePercentEff10]
    norm_num [generate_loop, e1]
  refine ⟨by norm_num, ratePercentEff10_nonneg, hs, hg, by norm_num, ?_⟩
  rw [abs_of_nonneg]
  · norm_num
  · norm_num

/-! ## Reconciliation-layer characterisation -/

/-- The per-row total gains telescope: the inclusive prefix sum of
`total_gain` collapses to `total_asset[k] - initial_asset_amount`. -/
theorem total_gain_col_telescopes (df : List RealInputRow) (A : ℝ) (k : ℕ) :
    ∑ j ∈ Finset.range (k + 1), total_gain_col df A j =
      (df.getD k default).total_asset - A := by
  induction k with
  | zero => simp [total_gain_col]
  | succ k ih =>
    rw [Finset.sum_range_succ, ih]
    show _ + total_gain_col df A (k + 1) = _
    simp only [total_gain_col]
    ring

/-- Row access for `apply_real_finance_update`: row `k` carries exactly the
columnwise assignments of `main.py` lines 275–283. -/
theorem apply_real_finance_update_getD (df : List RealInputRow) (A : ℝ) (k : ℕ)
    (hk : k < df.length) :
    (apply_real_finance_update df A).getD k default =
      { total_asset := (df.getD k default).total_asset
        earned_income := (df.getD k default).earned_income
        expense := (df.getD k default).expense
        saving := saving_col df k
        cumulative_saving := ∑ j ∈ Finset.range (k + 1), saving_col df j
        total_gain := total_gain_col df A k
        cumulative_total_gain := ∑ j ∈ Finset.range (k + 1), total_gain_col df A j
        investment_gain := total_gain_col df A k - saving_col df k
        cumulative_investment_gain :=
          ∑ j ∈ Finset.range (k + 1), (total_gain_col df A j - saving_col df j) } := by
  unfold apply_real_finance_update
  rw [List.getD_eq_get _ _ (by simpa using hk)]
  simp [List.get_ofFn, List.getElem?_eq_getElem hk]

/-- With a non-empty plan, the merged frame has one row per plan month. -/
theorem add_real_finance_length (plan : List Month) (records : List RecordRow)
    (anchor : Month) (A : ℝ) (hp : plan ≠ []) :
    (add_real_finance plan records anchor A).length = plan.length := by
  unfold add_real_finance
  rw [if_neg (by simp [hp])]
  simp [hp]

/-- Row access for `add_real_finance` with a non-empty plan: row `i` carries
the zero-filled record fields of plan month `i`, the always-written
`saving_real`, and the anchored `total_asset_real`. -/
theorem add_real_finance_getD (plan : List Month) (records : List RecordRow)
    (anchor : Month) (A : ℝ) (hp : plan ≠ []) (i : ℕ) (hi : i < plan.length) :
    (add_real_finance plan records anchor A).getD i mergedDefault =
      { month := plan.getD i 0
        salary_real := (record_or_zero records (plan.getD i 0)).salary
        expense_real := (record_or_zero records (plan.getD i 0)).expense
        asset_change_real := (record_or_zero records (plan.getD i 0)).asset_change
        cash_transfer_real := (record_or_zero records (plan.getD i 0)).cash_transfer
        saving_real := some (saving_real_at records (plan.getD i 0))
        total_asset_real :=
          match plan.findIdx? (fun m => decide (anchor ≤ m)) with
          | none => none
          | some s =>
            if i < s then none
            else some (A + ∑ j ∈ Finset.Icc s i,
              saving_real_at records (plan.getD j 0)) } := by
  unfold add_real_finance
  rw [if_neg (by simp [hp])]
  simp only [List.isEmpty_eq_true, hp, if_false, List.isEmpty_iff]
  rw [List.getD_eq_get _ _ (by simpa using hi)]
  simp [List.get_ofFn, List.getElem?_eq_getElem hi, List.getD_eq_getElem _ _ hi,
    List.get_eq_getElem, hp]

/-- A month with no record contributes a zero `saving_real`. -/
theorem saving_real_at_nil (m : Month) : saving_real_at [] m = 0 := by
  simp [saving_real_at, record_or_zero, List.find?]

/-! ## Claim theorems: reconciliation -/

/-- C10: in `apply_real_finance_update`, the per-row `total_gain` values
telescope: for every row `k`, `cumulative_total_gain = total_asset[k] −
initial_asset_amount` (independent of all income/expense entries), and
consequently `cumulative_investment_gain = total_asset[k] −
initial_asset_amount − cumulative_saving[k]`. -/
theorem cumulative_gains_telescope (df : List RealInputRow) (A : ℝ) (k : ℕ)
    (hk : k < df.length) :
    ((apply_real_finance_update df A).getD k default).cumulative_total_gain =
      (df.getD k default).total_asset - A ∧
    ((apply_real_finance_update df A).getD k default).cumulative_investment_gain =
      (df.getD k default).total_asset - A -
        ((apply_real_finance_update df A).getD k default).cumulative_saving := by
  rw [apply_real_finance_update_getD df A k hk]
  refine ⟨total_gain_col_telescopes df A k, ?_⟩
  show ∑ j ∈ Finset.range (k + 1), (total_gain_col df A j - saving_col df j) = _
  rw [Finset.sum_sub_distrib, total_gain_col_telescopes df A k]

/-- C10 witness: two concrete rows (`total_asset` 10 then 20, initial 4):
row 1 has `cumulative_total_gain = 16` and
`cumulative_investment_gain = 16 − cumulative_saving`. -/
theorem cumulative_gains_telescope_witness :
    ((apply_real_finance_update
        [{ total_asset := 10, earned_income := 3, expense := 1 },
         { total_asset := 20, earned_income := 5, expense := 2 }] 4).getD 1
      default).cumulative_total_gain = 20 - 4 ∧
    ((apply_real_finance_update
        [{ total_asset := 10, earned_income := 3, expense := 1 },
         { total_asset := 20, earned_income := 5, expense := 2 }] 4).getD 1
      default).cumulative_investment_gain =
      20 - 4 - ((apply_real_finance_update
        [{ total_asset := 10, earned_income := 3, expense := 1 },
         { total_asset := 20, earned_income := 5, expense := 2 }] 4).getD 1
      default).cumulative_saving := by
  have h := cumulative_gains_telescope
    [{ total_asset := 10, earned_income := 3, expense := 1 },
     { total_asset := 20, earned_income := 5, expense := 2 }] 4 1 (by norm_num)
  simpa using h

/-- C4 (amended): with a non-empty plan, the merged frame of
`add_real_finance` has one row per plan month; the anchor row is the first row
whose month is ≥ `initial_asset_month`, `total_asset_real` is absent strictly
before it, equals the initial amount plus the running sum of `saving_real`
from the anchor row onward, and is absent everywhere when no row qualifies —
**but** `saving_real` is populated (a number, not absent) on *every* row,
including rows before the anchor.  (The claim's assertion that rows before the
anchor carry no actual-derived values at all is refuted by the
counterexample; `apply_real_finance_update` has no anchor parameter at all and
accumulates from row 0 unconditionally.) -/
theorem anchor_semantics (plan : List Month) (records : List RecordRow) (anchor : Month)
    (A : ℝ) (hp : plan ≠ []) :
    (add_real_finance plan records anchor A).length = plan.length ∧
    (∀ i, i < plan.length →
      ((add_real_finance plan records anchor A).getD i mergedDefault).saving_real =
        some (saving_real_at records (plan.getD i 0))) ∧
    ((∀ m ∈ plan, ¬anchor ≤ m) →
      ∀ i, ((add_real_finance plan records anchor A).getD i
        mergedDefault).total_asset_real = none) ∧
    (∀ s, s < plan.length → anchor ≤ plan.getD s 0 →
      (∀ j, j < s → ¬anchor ≤ plan.getD j 0) →
      ∀ i, i < plan.length →
        (i < s → ((add_real_finance plan records anchor A).getD i
          mergedDefault).total_asset_real = none) ∧
        (s ≤ i → ((add_real_finance plan records anchor A).getD i
          mergedDefault).total_asset_real =
            some (A + ∑ j ∈ Finset.Icc s i, saving_real_at records (plan.getD j 0)))) := by
  refine ⟨add_real_finance_length plan records anchor A hp, ?_, ?_, ?_⟩
  · intro i hi
    rw [add_real_finance_getD plan records anchor A hp i hi]
  · intro hnone i
    by_cases hi : i < plan.length
    · rw [add_real_finance_getD plan records anchor A hp i hi]
      have hfind : plan.findIdx? (fun m => decide (anchor ≤ m)) = none := by
        rw [List.findIdx?_eq_none_iff]
        intro x hx
        simp [hnone x hx]
      show (match plan.findIdx? (fun m => decide (anchor ≤ m)) with
        | none => (none : Option ℝ)
        | some s => if i < s then none
            else some (A + ∑ j ∈ Finset.Icc s i, saving_real_at records (plan.getD j 0))) = none
      rw [hfind]
    · have hlen := add_real_finance_length plan records anchor A hp
      have hge : (add_real_finance plan records anchor A).length ≤ i := by omega
      rw [List.getD_eq_default _ _ hge]
      rfl
  · intro s hs hanchor hfirst i hi
    have hfind : plan.findIdx? (fun m => decide (anchor ≤ m)) = some s := by
      rw [List.findIdx?_eq_some_iff_getElem]
      refine ⟨by simpa using hs, ?_, ?_⟩
      · rw [List.getD_eq_getElem _ _ hs] at hanchor
        simpa using hanchor
      · intro j hj
        have hj' : j < plan.length := Nat.lt_trans hj hs
        have := hfirst j hj
        rw [List.getD_eq_getElem _ _ hj'] at this
        simpa using this
    have hshow : ((add_real_finance plan records anchor A).getD i
        mergedDefault).total_asset_real =
        (if i < s then none
         else some (A + ∑ j ∈ Finset.Icc s i, saving_real_at records (plan.getD j 0))) := by
      rw [add_real_finance_getD plan records anchor A hp i hi]
      show (match plan.findIdx? (fun m => decide (anchor ≤ m)) with
        | none => (none : Option ℝ)
        | some s => if i < s then none
            else some (A + ∑ j ∈ Finset.Icc s i, saving_real_at records (plan.getD j 0))) = _
      rw [hfind]
    constructor
    · intro hlt
      rw [hshow, if_pos hlt]
    · intro hge
      rw [hshow, if_neg (by omega)]

/-- C4 witness: plan months `[0, 1]`, no records, anchor month `1`, initial
amount `10`: the anchor row is row 1; `total_asset_real` is absent on row 0
and `10` on row 1; `saving_real` is `0` (present) on row 0. -/
theorem anchor_semantics_witness :
    ((add_real_finance [0, 1] [] 1 10).getD 0 mergedDefault).total_asset_real = none ∧
    ((add_real_finance [0, 1] [] 1 10).getD 1 mergedDefault).total_asset_real = some 10 ∧
    ((add_real_finance [0, 1] [] 1 10).getD 0 mergedDefault).saving_real = some 0 := by
  obtain ⟨hlen, hsv, _, hanchor⟩ := anchor_semantics [0, 1] [] 1 10 (by simp)
  have hrow := hanchor 1 (by norm_num) (by decide)
    (fun j hj => by
      have hj0 : j = 0 := by omega
      subst hj0
      decide)
  refine ⟨(hrow 0 (by norm_num)).1 (by norm_num), ?_, ?_⟩
  · have h1 := (hrow 1 (by norm_num)).2 le_rfl
    rw [h1, Finset.Icc_self, Finset.sum_singleton]
    norm_num [saving_real_at_nil]
  · rw [hsv 0 (by norm_num), saving_real_at_nil]

/-- C4 counterexample: plan months `[0, 1]`, anchor month `1`.  Row 0
(month `0`) lies strictly before the anchor row (row 1 is the first with
month ≥ 1), yet its `saving_real` is populated with the value `0` — "zero",
not "absent" — contradicting the claim that rows before the anchor carry no
actual-derived values. -/
theorem anchor_counterexample :
    ¬((1 : Month) ≤ 0) ∧ ((1 : Month) ≤ 1) ∧
    ((add_real_finance [0, 1] [] 1 10).getD 0 mergedDefault).saving_real = some 0 ∧
    ((add_real_finance [0, 1] [] 1 10).getD 0 mergedDefault).saving_real ≠ none := by
  have h := add_real_finance_getD [0, 1] [] 1 10 (by simp) 0 (by norm_num)
  rw [h]
  refine ⟨by decide, by decide, ?_, ?_⟩
  · show some (saving_real_at [] ([0, 1].getD 0 0)) = some 0
    rw [saving_real_at_nil]
  · show some (saving_real_at [] ([0, 1].getD 0 0)) ≠ none
    simp

/-- C5 (amended): in `apply_real_finance_update`, every row's `saving` equals
`earned_income − expense` of that row; in `add_real_finance`, record fields of
unmatched months default to zero — so an unedited month's saving is `0` — but
`saving_real` there is `salary − expense + asset_change + cash_transfer`:
asset adjustments and cash transfers also enter, contrary to the claim (see
the counterexample). -/
theorem saving_formula :
    (∀ (df : List RealInputRow) (A : ℝ) (k : ℕ), k < df.length →
      ((apply_real_finance_update df A).getD k default).saving =
        (df.getD k default).earned_income - (df.getD k default).expense) ∧
    (∀ (records : List RecordRow) (m : Month),
      records.find? (fun r => r.month = m) = none → saving_real_at records m = 0) ∧
    (∀ (plan : List Month) (records : List RecordRow) (anchor : Month) (A : ℝ),
      plan ≠ [] → ∀ i, i < plan.length →
      ((add_real_finance plan records anchor A).getD i mergedDefault).saving_real =
        some ((record_or_zero records (plan.getD i 0)).salary -
          (record_or_zero records (plan.getD i 0)).expense +
          (record_or_zero records (plan.getD i 0)).asset_change +
          (record_or_zero records (plan.getD i 0)).cash_transfer)) := by
  refine ⟨?_, ?_, ?_⟩
  · intro df A k hk
    rw [apply_real_finance_update_getD df A k hk]
    rfl
  · intro records m h
    simp [saving_real_at, record_or_zero, h]
  · intro plan records anchor A hp i hi
    rw [add_real_finance_getD plan records anchor A hp i hi]
    rfl

/-- C5 witness: an edited row with income `7`, expense `3` gets saving
`7 − 3`; a month with no record gets saving `0`. -/
theorem saving_formula_witness :
    ((apply_real_finance_update
        [{ total_asset := 10, earned_income := 7, expense := 3 }] 0).getD 0
      default).saving = 7 - 3 ∧
    saving_real_at [] 5 = 0 := by
  refine ⟨?_, saving_formula.2.1 [] 5 rfl⟩
  have h1 := saving_formula.1 [{ total_asset := 10, earned_income := 7, expense := 3 }]
    0 0 (by norm_num)
  simpa using h1

/-- C5 counterexample: a record whose only non-zero field is
`cash_transfer = 5` produces `saving_real = 5` in `add_real_finance`, while
`earned_income − expense = 0 − 0 = 0`: a field other than income and expense
enters the saving computation, refuting the claim as stated. -/
theorem saving_formula_counterexample :
    ((add_real_finance [0]
        [{ month := 0, salary := 0, expense := 0, asset_change := 0, cash_transfer := 5 }]
        0 0).getD 0 mergedDefault).saving_real = some 5 ∧
    (5 : ℝ) ≠ 0 - 0 := by
  have h := add_real_finance_getD [0]
    [{ month := 0, salary := 0, expense := 0, asset_change := 0, cash_transfer := 5 }]
    0 0 (by simp) 0 (by norm_num)
  rw [h]
  constructor
  · show some (saving_real_at _ ([0].getD 0 0)) = some 5
    simp [saving_real_at, record_or_zero, List.find?]
  · norm_num

end FinanceTracker
